import Mathlib

/-!
Verification of the Dubai FAQ resolution pipeline
(faq_functions.py and workflow_manager.py).

The pipeline threads a mutable `FAQState` record through three resolvers
(SQL exact match, vector similarity, LLM generation) followed by a
finalization step.  External collaborators (the SQLite store, the
embedding model plus Pinecone index, and the Gemini model) are modelled
by an `Env` record giving, for one request, the data they hold and
whether each call succeeds or raises.
-/

/-- The state record threaded through the pipeline (`FAQState` in
faq_functions.py).  Similarity scores are modelled as rationals. -/
structure FAQState where
  question : String
  answer : Option String
  similarity_score : Option ℚ
  method : Option String
  matched_question : Option String
  error : Option String
  deriving Repr, DecidableEq

/-- One candidate returned by the Pinecone top-1 query: its score and the
stored question/answer pair from its metadata. -/
structure VectorMatch where
  score : ℚ
  question : String
  answer : String
  deriving Repr, DecidableEq

/-- The external collaborators for one request: the rows of the SQLite
`faqs` table and whether accessing it raises; the outcome of the
embedding plus Pinecone top-1 query (an exception, no candidate, or one
candidate); the outcome of the Gemini call; and the configurable
similarity threshold (`SIMILARITY_THRESHOLD`, default 0.75). -/
structure Env where
  db : List (String × String)
  sqlFailure : Option String
  vectorResult : Except String (Option VectorMatch)
  llmResult : Except String String
  threshold : ℚ
  deriving Repr

/-- Python's `str.lower()`, character by character over the string's
characters. -/
def pyLower (s : String) : String :=
  String.mk (s.data.map Char.toLower)

/-- Python's `str.strip()`: drop whitespace from both ends. -/
def pyStrip (s : String) : String :=
  String.mk (((s.data.dropWhile Char.isWhitespace).reverse.dropWhile
    Char.isWhitespace).reverse)

/-- The SELECT in `query_sql_database`: the answer of the first `faqs`
row whose question, lowercased, equals the stripped then lowercased
input question (`lower(question) = lower(?)` with the parameter
`question.strip()`). -/
def sqlLookup (db : List (String × String)) (q : String) : Option String :=
  (db.find? (fun row => pyLower row.1 == pyLower (pyStrip q))).map Prod.snd

/-- `DubaiFAQService.query_sql_database`: look the question up in the
SQLite store.  On a hit set `answer` and `method = "sql_match"`; on no
hit return the state unchanged; if the store access raises, record the
detail in `error`.  Note: unlike the other two resolvers, this function
performs no "answer already set" check. -/
def query_sql_database (env : Env) (s : FAQState) : FAQState :=
  match env.sqlFailure with
  | some e => { s with error := some ("SQL search failed: " ++ e) }
  | none =>
    match sqlLookup env.db s.question with
    | some a => { s with answer := some a, method := some "sql_match" }
    | none => s

/-- `DubaiFAQService.search_vector_database`: skip when an answer is
already present; otherwise embed the question and query Pinecone.  With
a candidate at or above the threshold, set `answer`, `similarity_score`,
`method = "vector_match"` and `matched_question`; below the threshold,
record only `similarity_score`; with no candidate, leave the state
unchanged; if embedding or the query raises, record `error`. -/
def search_vector_database (env : Env) (s : FAQState) : FAQState :=
  if s.answer.isSome then s
  else
    match env.vectorResult with
    | Except.error e => { s with error := some ("Vector search failed: " ++ e) }
    | Except.ok none => s
    | Except.ok (some m) =>
      if env.threshold ≤ m.score then
        { s with answer := some m.answer,
                 similarity_score := some m.score,
                 method := some "vector_match",
                 matched_question := some m.question }
      else
        { s with similarity_score := some m.score }

/-- The fixed user-safe apology returned by
`DubaiFAQService._get_error_message` (it ignores the error detail). -/
def ERROR_MESSAGE : String :=
  "I apologize, but I'm unable to generate an answer at the moment. This could be due to a temporary service issue. Please try rephrasing your question or try again in a moment."

/-- `DubaiFAQService.call_llm_for_answer`: skip when an answer is
already present; otherwise ask Gemini.  On success set `answer` to the
generated text and `method = "llm_generated"`; on failure set `answer`
to the fixed apology, `method = "error"` and record `error`. -/
def call_llm_for_answer (env : Env) (s : FAQState) : FAQState :=
  if s.answer.isSome then s
  else
    match env.llmResult with
    | Except.ok text =>
      { s with answer := some text, method := some "llm_generated" }
    | Except.error e =>
      { s with answer := some ERROR_MESSAGE,
               method := some "error",
               error := some ("LLM generation failed: " ++ e) }

/-- The fixed fallback message set by `finalize_response`. -/
def FALLBACK_MESSAGE : String :=
  "I apologize, but I'm unable to provide an answer at the moment. Please try again later."

/-- Python truthiness of the `answer` field: `not state.get("answer")`
holds when it is `None` or the empty string. -/
def answerFalsy (a : Option String) : Bool :=
  match a with
  | none => true
  | some t => t == ""

/-- `DubaiFAQService.finalize_response`: when `answer` is falsy (absent
or empty) replace it with the fixed fallback message and set
`method = "fallback"`; otherwise return the state unchanged. -/
def finalize_response (s : FAQState) : FAQState :=
  if answerFalsy s.answer then
    { s with answer := some FALLBACK_MESSAGE, method := some "fallback" }
  else s

/-- `DubaiFAQService.should_search_vector_db`: routing decision after
the SQL search. -/
def should_search_vector_db (s : FAQState) : String :=
  if s.answer.isSome then "finalize_response" else "search_vector_database"

/-- `DubaiFAQService.should_use_llm`: routing decision after the vector
search. -/
def should_use_llm (s : FAQState) : String :=
  if s.answer.isSome then "finalize_response" else "call_llm_for_answer"

/-- The nodes of the LangGraph workflow built by
`WorkflowManager._build_langgraph_workflow`. -/
inductive Node where
  | querySql
  | searchVector
  | callLlm
  | finalize
  deriving Repr, DecidableEq

/-- The function attached to each LangGraph node. -/
def applyNode (env : Env) : Node → FAQState → FAQState
  | Node.querySql => query_sql_database env
  | Node.searchVector => search_vector_database env
  | Node.callLlm => call_llm_for_answer env
  | Node.finalize => finalize_response

/-- The edges of the LangGraph workflow: conditional edges after the SQL
and vector nodes route through the two decision functions' returned node
names; `call_llm_for_answer` goes to `finalize_response`; the finalize
node goes to END (`none`). -/
def routeAfter : Node → FAQState → Option Node
  | Node.querySql, s =>
    if should_search_vector_db s = "finalize_response" then some Node.finalize
    else some Node.searchVector
  | Node.searchVector, s =>
    if should_use_llm s = "finalize_response" then some Node.finalize
    else some Node.callLlm
  | Node.callLlm, _ => some Node.finalize
  | Node.finalize, _ => none

/-- Fuel-bounded execution of the LangGraph workflow from a node: run
the node's function, then follow the outgoing edge. -/
def runFrom (env : Env) : Nat → Node → FAQState → FAQState
  | 0, _, s => s
  | fuel + 1, node, s =>
    let t := applyNode env node s
    match routeAfter node t with
    | none => t
    | some next => runFrom env fuel next t

/-- Invoking the compiled LangGraph workflow: START goes to
`query_sql_database`; four node executions always reach END, so fuel 5
is enough. -/
def langgraphInvoke (env : Env) (s : FAQState) : FAQState :=
  runFrom env 5 Node.querySql s

/-- `SimpleWorkflow.invoke`: the manual fallback pipeline — SQL search,
then vector search and LLM only while no answer is present, then
finalization. -/
def SimpleWorkflow.invoke (env : Env) (s0 : FAQState) : FAQState :=
  let s1 := query_sql_database env s0
  let s2 := if s1.answer = none then search_vector_database env s1 else s1
  let s3 := if s2.answer = none then call_llm_for_answer env s2 else s2
  finalize_response s3

/-- The fresh record built by `WorkflowManager.process_question`. -/
def initialState (q : String) : FAQState :=
  { question := q, answer := none, similarity_score := none,
    method := none, matched_question := none, error := none }

/-- `WorkflowManager.process_question`: build the fresh record and
invoke the workflow (the LangGraph one when the library is available,
otherwise `SimpleWorkflow`); if the invocation itself raises
(`wfException`), catch it and return the error record. -/
def process_question (env : Env) (langgraphAvailable : Bool)
    (wfException : Option String) (q : String) : FAQState :=
  match wfException with
  | some e =>
    { question := q,
      answer := some ("Workflow execution failed: " ++ e),
      similarity_score := none,
      method := some "error",
      matched_question := none,
      error := some e }
  | none =>
    if langgraphAvailable then langgraphInvoke env (initialState q)
    else SimpleWorkflow.invoke env (initialState q)

/-! ## Helper lemmas -/

/-- Routing after the SQL node when an answer is present goes to
finalization. -/
theorem routeAfter_sql_some (s : FAQState) (h : s.answer.isSome) :
    routeAfter Node.querySql s = some Node.finalize := by
  simp [routeAfter, should_search_vector_db, h]

/-- Routing after the SQL node with no answer goes to the vector
search. -/
theorem routeAfter_sql_none (s : FAQState) (h : s.answer = none) :
    routeAfter Node.querySql s = some Node.searchVector := by
  simp only [routeAfter, should_search_vector_db, h, Option.isSome_none,
    Bool.false_eq_true, if_false]
  rw [if_neg (by decide)]

/-- Routing after the vector node when an answer is present goes to
finalization. -/
theorem routeAfter_vector_some (s : FAQState) (h : s.answer.isSome) :
    routeAfter Node.searchVector s = some Node.finalize := by
  simp [routeAfter, should_use_llm, h]

/-- Routing after the vector node with no answer goes to the LLM. -/
theorem routeAfter_vector_none (s : FAQState) (h : s.answer = none) :
    routeAfter Node.searchVector s = some Node.callLlm := by
  simp only [routeAfter, should_use_llm, h, Option.isSome_none,
    Bool.false_eq_true, if_false]
  rw [if_neg (by decide)]

/-- The vector search is a no-op on a state that already has an
answer. -/
theorem search_vector_skip (env : Env) (s : FAQState) (h : s.answer ≠ none) :
    search_vector_database env s = s := by
  unfold search_vector_database
  rw [if_pos (Option.isSome_iff_ne_none.mpr h)]

/-- The LLM call is a no-op on a state that already has an answer. -/
theorem call_llm_skip (env : Env) (s : FAQState) (h : s.answer ≠ none) :
    call_llm_for_answer env s = s := by
  unfold call_llm_for_answer
  rw [if_pos (Option.isSome_iff_ne_none.mpr h)]

/-- One execution step of the graph at fuel 5. -/
theorem runFrom5_eq (env : Env) (node : Node) (s : FAQState) :
    runFrom env 5 node s =
      match routeAfter node (applyNode env node s) with
      | none => applyNode env node s
      | some next => runFrom env 4 next (applyNode env node s) := rfl

/-- One execution step of the graph at fuel 4. -/
theorem runFrom4_eq (env : Env) (node : Node) (s : FAQState) :
    runFrom env 4 node s =
      match routeAfter node (applyNode env node s) with
      | none => applyNode env node s
      | some next => runFrom env 3 next (applyNode env node s) := rfl

/-- One execution step of the graph at fuel 3. -/
theorem runFrom3_eq (env : Env) (node : Node) (s : FAQState) :
    runFrom env 3 node s =
      match routeAfter node (applyNode env node s) with
      | none => applyNode env node s
      | some next => runFrom env 2 next (applyNode env node s) := rfl

/-- One execution step of the graph at fuel 2. -/
theorem runFrom2_eq (env : Env) (node : Node) (s : FAQState) :
    runFrom env 2 node s =
      match routeAfter node (applyNode env node s) with
      | none => applyNode env node s
      | some next => runFrom env 1 next (applyNode env node s) := rfl

/-- The LangGraph workflow and the simple fallback workflow compute the
same final state on every initial state. -/
theorem invoke_eq (env : Env) (s : FAQState) :
    langgraphInvoke env s = SimpleWorkflow.invoke env s := by
  unfold langgraphInvoke SimpleWorkflow.invoke
  rcases h1 : (query_sql_database env s).answer with _ | a1
  · rcases h2 : (search_vector_database env (query_sql_database env s)).answer with _ | a2
    · -- no SQL answer, no vector answer: run the LLM then finalize
      rw [runFrom5_eq]
      simp only [applyNode]
      rw [routeAfter_sql_none _ h1]
      dsimp only
      rw [runFrom4_eq]
      simp only [applyNode]
      rw [routeAfter_vector_none _ h2]
      dsimp only
      rw [runFrom3_eq]
      simp only [applyNode, routeAfter]
      rw [runFrom2_eq]
      simp only [applyNode, routeAfter]
      rw [if_pos h1, if_pos h2]
    · -- no SQL answer, vector answer found: finalize directly
      rw [runFrom5_eq]
      simp only [applyNode]
      rw [routeAfter_sql_none _ h1]
      dsimp only
      rw [runFrom4_eq]
      simp only [applyNode]
      rw [routeAfter_vector_some _ (by simp [h2])]
      dsimp only
      rw [runFrom3_eq]
      simp only [applyNode, routeAfter]
      rw [if_pos h1, if_neg (by simp [h2])]
  · -- SQL answer found: skip vector and LLM, finalize
    rw [runFrom5_eq]
    simp only [applyNode]
    rw [routeAfter_sql_some _ (by simp [h1])]
    dsimp only
    rw [runFrom4_eq]
    simp only [applyNode, routeAfter]
    rw [if_neg (by simp [h1]), if_neg (by simp [h1])]

/-- When finalization receives an answer and a method, it returns an
answer and a method. -/
theorem finalize_keeps (s : FAQState) (ha : s.answer ≠ none) (hm : s.method ≠ none) :
    (finalize_response s).answer ≠ none ∧ (finalize_response s).method ≠ none := by
  unfold finalize_response
  split
  · exact ⟨by simp, by simp⟩
  · exact ⟨ha, hm⟩

/-- Starting from a state with no answer, the LLM step always sets both
the answer and the method. -/
theorem call_llm_sets (env : Env) (s : FAQState) (h : s.answer = none) :
    (call_llm_for_answer env s).answer ≠ none ∧
    (call_llm_for_answer env s).method ≠ none := by
  unfold call_llm_for_answer
  rw [if_neg (by simp [h])]
  split <;> exact ⟨by simp, by simp⟩

/-- Starting from a state with no answer, if the SQL step produced an
answer it also set the method. -/
theorem query_sql_sets_method (env : Env) (s : FAQState) (h : s.answer = none)
    (ha : (query_sql_database env s).answer ≠ none) :
    (query_sql_database env s).method ≠ none := by
  unfold query_sql_database at *
  revert ha
  rcases env.sqlFailure with _ | e
  · dsimp only
    rcases sqlLookup env.db s.question with _ | a
    · intro ha
      exact absurd h ha
    · intro _
      simp
  · dsimp only
    intro ha
    exact absurd h ha

/-- Starting from a state with no answer, if the vector step produced an
answer it also set the method. -/
theorem search_vector_sets_method (env : Env) (s : FAQState) (h : s.answer = none)
    (ha : (search_vector_database env s).answer ≠ none) :
    (search_vector_database env s).method ≠ none := by
  unfold search_vector_database at *
  rw [if_neg (by simp [h])] at ha ⊢
  revert ha
  rcases env.vectorResult with e | r
  · dsimp only
    intro ha
    exact absurd h ha
  · rcases r with _ | m
    · dsimp only
      intro ha
      exact absurd h ha
    · dsimp only
      by_cases ht : env.threshold ≤ m.score
      · rw [if_pos ht]
        intro _
        simp
      · rw [if_neg ht]
        dsimp only
        intro ha
        exact absurd h ha

/-- The simple workflow always returns a state with both the answer and
the method set, starting from a fresh state. -/
theorem invoke_complete (env : Env) (s : FAQState) (h : s.answer = none) :
    (SimpleWorkflow.invoke env s).answer ≠ none ∧
    (SimpleWorkflow.invoke env s).method ≠ none := by
  unfold SimpleWorkflow.invoke
  dsimp only
  by_cases h1 : (query_sql_database env s).answer = none
  · rw [if_pos h1]
    by_cases h2 : (search_vector_database env (query_sql_database env s)).answer = none
    · rw [if_pos h2]
      exact finalize_keeps _ (call_llm_sets env _ h2).1 (call_llm_sets env _ h2).2
    · rw [if_neg h2]
      exact finalize_keeps _ h2 (search_vector_sets_method env _ h1 h2)
  · rw [if_neg h1, if_neg h1]
    exact finalize_keeps _ h1 (query_sql_sets_method env s h h1)

/-- The SQL step never touches `similarity_score` or
`matched_question`. -/
theorem query_sql_frame (env : Env) (s : FAQState) :
    (query_sql_database env s).similarity_score = s.similarity_score ∧
    (query_sql_database env s).matched_question = s.matched_question := by
  unfold query_sql_database
  rcases env.sqlFailure with _ | e
  · rcases sqlLookup env.db s.question with _ | a <;> exact ⟨rfl, rfl⟩
  · exact ⟨rfl, rfl⟩

/-- The LLM step never touches `similarity_score` or
`matched_question`. -/
theorem call_llm_frame (env : Env) (s : FAQState) :
    (call_llm_for_answer env s).similarity_score = s.similarity_score ∧
    (call_llm_for_answer env s).matched_question = s.matched_question := by
  unfold call_llm_for_answer
  by_cases hs : s.answer.isSome
  · rw [if_pos hs]
    exact ⟨rfl, rfl⟩
  · rw [if_neg hs]
    rcases env.llmResult with e | t <;> exact ⟨rfl, rfl⟩

/-- Finalization never touches `similarity_score` or
`matched_question`. -/
theorem finalize_frame (s : FAQState) :
    (finalize_response s).similarity_score = s.similarity_score ∧
    (finalize_response s).matched_question = s.matched_question := by
  unfold finalize_response
  split <;> exact ⟨rfl, rfl⟩

/-- The vector step preserves the invariant that `matched_question` is
only set when `similarity_score` is. -/
theorem search_vector_invariant (env : Env) (s : FAQState)
    (h : s.matched_question ≠ none → s.similarity_score ≠ none) :
    (search_vector_database env s).matched_question ≠ none →
    (search_vector_database env s).similarity_score ≠ none := by
  unfold search_vector_database
  by_cases hs : s.answer.isSome
  · rw [if_pos hs]
    exact h
  · rw [if_neg hs]
    rcases env.vectorResult with e | r
    · exact h
    · rcases r with _ | m
      · exact h
      · dsimp only
        by_cases ht : env.threshold ≤ m.score
        · rw [if_pos ht]
          intro _
          simp
        · rw [if_neg ht]
          intro _
          simp

/-- The whole simple workflow preserves the invariant that
`matched_question` is only set when `similarity_score` is. -/
theorem invoke_invariant (env : Env) (s : FAQState)
    (h : s.matched_question ≠ none → s.similarity_score ≠ none) :
    (SimpleWorkflow.invoke env s).matched_question ≠ none →
    (SimpleWorkflow.invoke env s).similarity_score ≠ none := by
  unfold SimpleWorkflow.invoke
  dsimp only
  have h1 : (query_sql_database env s).matched_question ≠ none →
      (query_sql_database env s).similarity_score ≠ none := by
    rw [(query_sql_frame env s).1, (query_sql_frame env s).2]
    exact h
  by_cases e1 : (query_sql_database env s).answer = none
  · rw [if_pos e1]
    have h2 := search_vector_invariant env _ h1
    by_cases e2 : (search_vector_database env (query_sql_database env s)).answer = none
    · rw [if_pos e2]
      have h3 : (call_llm_for_answer env (search_vector_database env (query_sql_database env s))).matched_question ≠ none →
          (call_llm_for_answer env (search_vector_database env (query_sql_database env s))).similarity_score ≠ none := by
        rw [(call_llm_frame env _).1, (call_llm_frame env _).2]
        exact h2
      rw [(finalize_frame _).1, (finalize_frame _).2]
      exact h3
    · rw [if_neg e2, (finalize_frame _).1, (finalize_frame _).2]
      exact h2
  · rw [if_neg e1, if_neg e1, (finalize_frame _).1, (finalize_frame _).2]
    exact h1

/-- Finalization always yields a non-empty answer string. -/
theorem finalize_nonempty (s : FAQState) :
    ∃ a, (finalize_response s).answer = some a ∧ a ≠ "" := by
  unfold finalize_response
  by_cases hf : answerFalsy s.answer
  · rw [if_pos hf]
    exact ⟨FALLBACK_MESSAGE, rfl, by decide⟩
  · rw [if_neg hf]
    rcases hsa : s.answer with _ | t
    · rw [hsa] at hf
      exact absurd rfl hf
    · rw [hsa] at hf
      refine ⟨t, rfl, fun ht => hf ?_⟩
      rw [ht]
      rfl

/-! ## Concrete request environments and states -/

/-- A request whose Pinecone query returns a candidate scoring 1/2,
below the 3/4 threshold. -/
def envBelowThreshold : Env :=
  { db := [], sqlFailure := none,
    vectorResult := Except.ok (some { score := mkRat 1 2, question := "q0", answer := "a0" }),
    llmResult := Except.ok "generated text", threshold := mkRat 3 4 }

/-- A request whose Pinecone query returns a candidate scoring 4/5,
above the 3/4 threshold. -/
def envAboveThreshold : Env :=
  { db := [], sqlFailure := none,
    vectorResult := Except.ok (some { score := mkRat 4 5, question := "q0", answer := "a0" }),
    llmResult := Except.ok "generated text", threshold := mkRat 3 4 }

/-! ## Claims -/

/-- C1: for every question — and any resolver outcomes —
`process_question` returns a record whose `answer` and `method` fields
are both non-null, whichever workflow implementation runs and even when
the invocation itself raises. -/
theorem c1_process_complete (env : Env) (lg : Bool) (wfExc : Option String)
    (q : String) :
    (process_question env lg wfExc q).answer ≠ none ∧
    (process_question env lg wfExc q).method ≠ none := by
  unfold process_question
  rcases wfExc with _ | e
  · dsimp only
    cases lg
    · rw [if_neg (by simp)]
      exact invoke_complete env (initialState q) rfl
    · rw [if_pos rfl, invoke_eq]
      exact invoke_complete env (initialState q) rfl
  · exact ⟨by simp, by simp⟩

/-- C2: when an exception escapes the workflow invocation,
`process_question` catches it and returns a completed record with
`method = "error"`, `error` set to the failure detail, and `answer` a
failure-description string — it never propagates the exception. -/
theorem c2_catches_exception (env : Env) (lg : Bool) (e q : String) :
    process_question env lg (some e) q =
      { question := q,
        answer := some ("Workflow execution failed: " ++ e),
        similarity_score := none,
        method := some "error",
        matched_question := none,
        error := some e } := rfl

/-- C3 counterexample: with a below-threshold candidate the pipeline
returns a record whose `similarity_score` is populated while
`matched_question` is null, so the two fields are not always populated
together. -/
theorem c3_counterexample :
    (process_question envBelowThreshold false none "hello").similarity_score = some (mkRat 1 2) ∧
    (process_question envBelowThreshold false none "hello").matched_question = none := by
  constructor <;> rfl

/-- C3 (amended): in every record produced by the pipeline,
`matched_question` is populated only when `similarity_score` also is (an
accepted semantic match sets both), while `similarity_score` may be
populated alone by a rejected below-threshold candidate; the SQL, LLM
and finalization steps never touch either field, so only the Semantic
Resolver sets them. -/
theorem c3_matched_only_with_score (env : Env) (lg : Bool)
    (wfExc : Option String) (q : String) :
    ((process_question env lg wfExc q).matched_question ≠ none →
      (process_question env lg wfExc q).similarity_score ≠ none) ∧
    (∀ s, (query_sql_database env s).similarity_score = s.similarity_score ∧
          (query_sql_database env s).matched_question = s.matched_question) ∧
    (∀ s, (call_llm_for_answer env s).similarity_score = s.similarity_score ∧
          (call_llm_for_answer env s).matched_question = s.matched_question) ∧
    (∀ s, (finalize_response s).similarity_score = s.similarity_score ∧
          (finalize_response s).matched_question = s.matched_question) := by
  refine ⟨?_, query_sql_frame env, call_llm_frame env, finalize_frame⟩
  unfold process_question
  rcases wfExc with _ | e
  · dsimp only
    cases lg
    · rw [if_neg (by simp)]
      exact invoke_invariant env (initialState q) (fun hh => absurd rfl hh)
    · rw [if_pos rfl, invoke_eq]
      exact invoke_invariant env (initialState q) (fun hh => absurd rfl hh)
  · intro hh
    exact absurd rfl hh

/-- C3 witness: at a concrete accepted semantic match the pipeline's
`matched_question` is set, and the amended theorem then yields a
populated `similarity_score`. -/
theorem c3_witness :
    (process_question envAboveThreshold true none "hello").similarity_score ≠ none :=
  (c3_matched_only_with_score envAboveThreshold true none "hello").1 (by decide)

/-- A state with `answer` unset but `method` already `"vector_match"`. -/
def preMarkedState : FAQState :=
  { question := "q", answer := none, similarity_score := none,
    method := some "vector_match", matched_question := none, error := none }

/-- C4 counterexample: on a state with `answer` unset whose `method` is
already `"vector_match"`, a below-threshold candidate (score 1/2 against
threshold 3/4) leaves `answer` unset and records the score, yet the
resulting `method` still equals `"vector_match"` — contradicting the
claim that below threshold the method is unequal to `"vector_match"`. -/
theorem c4_counterexample :
    preMarkedState.answer = none ∧
    (mkRat 1 2 < mkRat 3 4) ∧
    (search_vector_database envBelowThreshold preMarkedState).answer = none ∧
    (search_vector_database envBelowThreshold preMarkedState).similarity_score = some (mkRat 1 2) ∧
    (search_vector_database envBelowThreshold preMarkedState).method = some "vector_match" := by
  exact ⟨rfl, by decide, rfl, rfl, rfl⟩

/-- C4 (amended): with `answer` unset and a candidate returned, the
vector step sets `answer` if and only if the score is at or above the
threshold, in which case `answer`, `method = "vector_match"`,
`matched_question` and `similarity_score` are all set; strictly below
the threshold it records `similarity_score` but leaves `answer` unset
and `method` and `matched_question` unchanged (so the chain proceeds to
the Generative Resolver). -/
theorem c4_threshold_gate (env : Env) (s : FAQState) (m : VectorMatch)
    (ha : s.answer = none) (hv : env.vectorResult = Except.ok (some m)) :
    ((search_vector_database env s).answer ≠ none ↔ env.threshold ≤ m.score) ∧
    (env.threshold ≤ m.score →
      (search_vector_database env s).answer = some m.answer ∧
      (search_vector_database env s).method = some "vector_match" ∧
      (search_vector_database env s).matched_question = some m.question ∧
      (search_vector_database env s).similarity_score = some m.score) ∧
    (m.score < env.threshold →
      (search_vector_database env s).similarity_score = some m.score ∧
      (search_vector_database env s).answer = none ∧
      (search_vector_database env s).method = s.method ∧
      (search_vector_database env s).matched_question = s.matched_question) := by
  unfold search_vector_database
  rw [if_neg (by simp [ha]), hv]
  dsimp only
  by_cases ht : env.threshold ≤ m.score
  · rw [if_pos ht]
    exact ⟨by simp [ht], fun _ => ⟨rfl, rfl, rfl, rfl⟩,
      fun hlt => absurd ht (not_le.mpr hlt)⟩
  · rw [if_neg ht]
    exact ⟨by simp [ha, ht], fun hle => absurd hle ht,
      fun _ => ⟨rfl, ha, rfl, rfl⟩⟩

/-- C4 witness: the amended theorem applied at a concrete accepted match
(score 4/5 against threshold 3/4). -/
theorem c4_witness :
    (search_vector_database envAboveThreshold (initialState "q")).answer = some "a0" ∧
    (search_vector_database envAboveThreshold (initialState "q")).method = some "vector_match" ∧
    (search_vector_database envAboveThreshold (initialState "q")).matched_question = some "q0" ∧
    (search_vector_database envAboveThreshold (initialState "q")).similarity_score = some (mkRat 4 5) :=
  ((c4_threshold_gate envAboveThreshold (initialState "q")
      { score := mkRat 4 5, question := "q0", answer := "a0" } rfl rfl).2).1 (by decide)

/-- A store holding one row, with all other collaborators healthy. -/
def envWithRow : Env :=
  { db := [("what is x?", "stored answer")], sqlFailure := none,
    vectorResult := Except.ok none, llmResult := Except.ok "generated text",
    threshold := mkRat 3 4 }

/-- A state that already carries an answer from an earlier source. -/
def answeredState : FAQState :=
  { question := "what is x?", answer := some "earlier answer",
    similarity_score := none, method := some "llm_generated",
    matched_question := none, error := none }

/-- C5 counterexample: `query_sql_database` performs no presence check:
on a state whose `answer` is already set, a store hit overwrites
`answer` and `method`, so it is not a no-op. -/
theorem c5_counterexample :
    answeredState.answer = some "earlier answer" ∧
    (query_sql_database envWithRow answeredState).answer = some "stored answer" ∧
    (query_sql_database envWithRow answeredState).method = some "sql_match" ∧
    query_sql_database envWithRow answeredState ≠ answeredState := by
  exact ⟨rfl, by decide, by decide, by decide⟩

/-- C5 (amended): `search_vector_database` and `call_llm_for_answer`
check for a present answer and return the state unchanged when one
exists; `query_sql_database` performs no such check and can overwrite an
existing answer, though the pipeline only ever invokes it first, on a
fresh state with `answer` unset. -/
theorem c5_skip_when_answered (env : Env) (s : FAQState) (h : s.answer ≠ none) :
    search_vector_database env s = s ∧ call_llm_for_answer env s = s :=
  ⟨search_vector_skip env s h, call_llm_skip env s h⟩

/-- C5 witness: the amended theorem applied at a concrete answered
state. -/
theorem c5_witness :
    search_vector_database envWithRow answeredState = answeredState ∧
    call_llm_for_answer envWithRow answeredState = answeredState :=
  c5_skip_when_answered envWithRow answeredState (by decide)

/-- C6: with `answer` unset and a reachable store, `query_sql_database`
looks up the normalized question (stripped of surrounding whitespace and
lowercased): on a hit it sets `answer` to the stored text and
`method = "sql_match"`; on no hit it returns the record unchanged — in
particular without setting `error`. -/
theorem c6_sql_lookup (env : Env) (s : FAQState)
    (ha : s.answer = none) (hok : env.sqlFailure = none) :
    (∀ a, sqlLookup env.db s.question = some a →
      (query_sql_database env s).answer = some a ∧
      (query_sql_database env s).method = some "sql_match") ∧
    (sqlLookup env.db s.question = none → query_sql_database env s = s) := by
  unfold query_sql_database
  rw [hok]
  dsimp only
  constructor
  · intro a hl
    rw [hl]
    exact ⟨rfl, rfl⟩
  · intro hl
    rw [hl]

/-- A store holding the currency row, with all other collaborators
healthy. -/
def c6Env : Env :=
  { db := [("What is the Currency?", "AED")], sqlFailure := none,
    vectorResult := Except.ok none, llmResult := Except.ok "generated text",
    threshold := mkRat 3 4 }

/-- C6 witness: the padded, differently-cased input hits the stored row
after normalization. -/
theorem c6_witness :
    (query_sql_database c6Env (initialState "  WHAT IS THE CURRENCY?  ")).answer = some "AED" ∧
    (query_sql_database c6Env (initialState "  WHAT IS THE CURRENCY?  ")).method = some "sql_match" :=
  (c6_sql_lookup c6Env (initialState "  WHAT IS THE CURRENCY?  ") rfl rfl).1 "AED" (by decide)

/-- C7: a store-access failure in the SQL step, or an embedding/index
failure in the vector step, records the failure detail in `error` but
leaves `answer` unset, so the pipeline continues to the next tier. -/
theorem c7_nonfatal_failures (envA envB : Env) (s : FAQState) (e1 e2 : String)
    (ha : s.answer = none) (h1 : envA.sqlFailure = some e1)
    (h2 : envB.vectorResult = Except.error e2) :
    ((query_sql_database envA s).error = some ("SQL search failed: " ++ e1) ∧
     (query_sql_database envA s).answer = none) ∧
    ((search_vector_database envB s).error = some ("Vector search failed: " ++ e2) ∧
     (search_vector_database envB s).answer = none) := by
  constructor
  · unfold query_sql_database
    rw [h1]
    exact ⟨rfl, ha⟩
  · unfold search_vector_database
    rw [if_neg (by simp [ha]), h2]
    exact ⟨rfl, ha⟩

/-- A request in which both the store and the index are down. -/
def envFailing : Env :=
  { db := [], sqlFailure := some "db unreachable",
    vectorResult := Except.error "index down",
    llmResult := Except.ok "generated text", threshold := mkRat 3 4 }

/-- C7 witness: concrete store and index outages are recorded in
`error` while `answer` stays unset. -/
theorem c7_witness :
    ((query_sql_database envFailing (initialState "q")).error = some "SQL search failed: db unreachable" ∧
     (query_sql_database envFailing (initialState "q")).answer = none) ∧
    ((search_vector_database envFailing (initialState "q")).error = some "Vector search failed: index down" ∧
     (search_vector_database envFailing (initialState "q")).answer = none) :=
  c7_nonfatal_failures envFailing envFailing (initialState "q")
    "db unreachable" "index down" rfl rfl rfl

/-- C8: when the model call fails and no answer is present,
`call_llm_for_answer` sets `answer` to the fixed user-safe apology,
`method = "error"`, and `error` to the failure detail — its failure
path, unlike the other two resolvers', always produces a non-null
answer. -/
theorem c8_llm_failure (env : Env) (s : FAQState) (e : String)
    (ha : s.answer = none) (h : env.llmResult = Except.error e) :
    (call_llm_for_answer env s).answer = some ERROR_MESSAGE ∧
    (call_llm_for_answer env s).method = some "error" ∧
    (call_llm_for_answer env s).error = some ("LLM generation failed: " ++ e) := by
  unfold call_llm_for_answer
  rw [if_neg (by simp [ha]), h]
  exact ⟨rfl, rfl, rfl⟩

/-- A request in which only the generative model fails. -/
def envLlmDown : Env :=
  { db := [], sqlFailure := none, vectorResult := Except.ok none,
    llmResult := Except.error "quota exceeded", threshold := mkRat 3 4 }

/-- C8 witness: a concrete model failure produces the apology answer,
`method = "error"` and the failure detail. -/
theorem c8_witness :
    (call_llm_for_answer envLlmDown (initialState "q")).answer = some ERROR_MESSAGE ∧
    (call_llm_for_answer envLlmDown (initialState "q")).method = some "error" ∧
    (call_llm_for_answer envLlmDown (initialState "q")).error = some "LLM generation failed: quota exceeded" :=
  c8_llm_failure envLlmDown (initialState "q") "quota exceeded" rfl rfl

/-- C9: the LangGraph workflow built by `_build_langgraph_workflow` and
`SimpleWorkflow.invoke` produce the same final record on every initial
state — the dual implementation is behaviorally a single linear
short-circuit chain. -/
theorem c9_workflows_equivalent (env : Env) (s : FAQState) :
    langgraphInvoke env s = SimpleWorkflow.invoke env s :=
  invoke_eq env s

/-- C10: finalization replaces any falsy answer — null or the empty
string — with the fixed fallback message and sets
`method = "fallback"`, overwriting a previously set method; hence the
pipeline always returns a non-empty answer string, and a generative
completion equal to the empty string ends as `method = "fallback"`
rather than `"llm_generated"`. -/
theorem c10_falsy_fallback :
    (∀ s : FAQState, (s.answer = none ∨ s.answer = some "") →
      (finalize_response s).answer = some FALLBACK_MESSAGE ∧
      (finalize_response s).method = some "fallback") ∧
    (∀ (env : Env) (s : FAQState), ∃ a,
      (SimpleWorkflow.invoke env s).answer = some a ∧ a ≠ "") ∧
    (∀ (env : Env) (s : FAQState), s.answer = none →
      env.llmResult = Except.ok "" →
      (finalize_response (call_llm_for_answer env s)).method = some "fallback") := by
  refine ⟨?_, ?_, ?_⟩
  · intro s hs
    unfold finalize_response
    have hb : answerFalsy s.answer = true := by
      rcases hs with hs | hs <;> rw [hs] <;> rfl
    rw [if_pos hb]
    exact ⟨rfl, rfl⟩
  · intro env s
    unfold SimpleWorkflow.invoke
    dsimp only
    exact finalize_nonempty _
  · intro env s h hl
    unfold call_llm_for_answer
    rw [if_neg (by simp [h]), hl]
    dsimp only
    unfold finalize_response
    rw [if_pos (show answerFalsy (some "") = true from rfl)]

/-- A state holding an empty generative completion. -/
def emptyAnswerState : FAQState :=
  { question := "q", answer := some "", similarity_score := none,
    method := some "llm_generated", matched_question := none, error := none }

/-- C10 witness: a concrete state with an empty answer is finalized to
the fallback message with `method = "fallback"`, overwriting
`"llm_generated"`. -/
theorem c10_witness :
    (finalize_response emptyAnswerState).answer = some FALLBACK_MESSAGE ∧
    (finalize_response emptyAnswerState).method = some "fallback" :=
  c10_falsy_fallback.1 emptyAnswerState (Or.inr rfl)
